import Mathlib

/-!
Verification of the `solver_api` repository: a shallow embedding of
`solver_horario.py` (the CP-SAT timetable solver script) and of the request
boundary declared in `app.py` (`SolverInput`), together with theorems about
the claims on this program.

The external CP-SAT solver is modelled as an oracle (`CpResult`): the script
inspects its status and, on success, reads off one value per decision
variable.  The constraint system that `resolver_horario` posts to the solver
is embedded as satisfaction predicates (`satisfiesSingle`, `satisfiesMulti`)
translated constraint by constraint from the source; the contract that a
successful solver run satisfies the posted model is the hypothesis
`SolverContract`.
-/

set_option linter.unusedVariables false

/-- A JSON scalar appearing in the script's inputs/outputs: period and day
labels are opaque JSON values; the multi-day period fallback is a raw
integer index. -/
inductive JVal where
  | str : String → JVal
  | num : Nat → JVal
deriving DecidableEq, Repr

/-- One element of the `unidades` list: `id_docente`, `grados`, and the
optional `docente_nombre` (read with `.get('docente_nombre', ...)`). -/
structure Unidad where
  id_docente : Nat
  grados : List Nat
  docente_nombre : Option String
deriving DecidableEq, Repr

def defaultUnidad : Unidad := ⟨0, [], none⟩

/-- The JSON document `resolver_horario` receives on stdin.  Fields read via
`datos.get(key, default)` in the source are `Option`s here: `none` models an
absent key. -/
structure Datos where
  unidades : List Unidad
  periodos_validos : List JVal
  grados : List Nat
  bloques_equiv : Option (List (String × List Nat))
  modo_multidia : Option Bool
  dias : Option (List JVal)
  periodos_por_dia : Option Nat
deriving DecidableEq

/-- Line 30 of the source: `datos.get('bloques_equiv', {})`. -/
def getBloques (d : Datos) : List (String × List Nat) := d.bloques_equiv.getD []

/-- Line 31 of the source: `datos.get('modo_multidia', False)`. -/
def getModo (d : Datos) : Bool := d.modo_multidia.getD false

/-- Line 32 of the source: `datos.get('dias', [])`. -/
def getDias (d : Datos) : List JVal := d.dias.getD []

/-- Line 33 of the source:
`datos.get('periodos_por_dia', len(periodos_validos))`. -/
def getPpd (d : Datos) : Nat := d.periodos_por_dia.getD d.periodos_validos.length

def unidadAt (d : Datos) (i : Nat) : Unidad := d.unidades.getD i defaultUnidad

def docenteAt (d : Datos) (i : Nat) : Nat := (unidadAt d i).id_docente

/-- `u.get('docente_nombre', f'Docente {doc}')`. -/
def nombreOf (u : Unidad) : String :=
  u.docente_nombre.getD ("Docente " ++ toString u.id_docente)

/-- Non-empty intersection of the two `grados` sets
(`set(unidades[i]['grados']) & set(unidades[j]['grados'])`). -/
def gradosInter (d : Datos) (i j : Nat) : Bool :=
  (unidadAt d i).grados.any (fun g => (unidadAt d j).grados.contains g)

/-- `(min(a, b), max(a, b))`, the normal form in which same-block pairs are
stored. -/
def pairKey (a b : Nat) : Nat × Nat := (min a b, max a b)

/-- All `(min, max)` pairs of values at distinct positions of one block's
index list (lines 44-46 of the source). -/
def bloquePairs : List Nat → List (Nat × Nat)
  | [] => []
  | x :: rest => rest.map (fun y => pairKey x y) ++ bloquePairs rest

/-- The `mismo_bloque` set (lines 42-46), as a list with the same
membership. -/
def mismoBloque (bloques : List (String × List Nat)) : List (Nat × Nat) :=
  (bloques.map (fun b => bloquePairs b.2)).flatten

/-- `i ∈ unidades_contadas` (lines 223-233 / 262-272): `i` is a member of
some block's index list. -/
def contada (bloques : List (String × List Nat)) (i : Nat) : Bool :=
  bloques.any (fun b => b.2.contains i)

/-- Per-teacher entry of `cursos_por_docente`. -/
structure DocInfo where
  nombre : String
  count : Nat
deriving DecidableEq, Repr

/-- One `cursos_por_docente` update: insert `{'nombre': nombre, 'count': 0}`
if the key is absent, then increment the count.  Insertion order is kept
(Python dicts preserve it). -/
def bump : List (Nat × DocInfo) → Nat → String → List (Nat × DocInfo)
  | [], doc, nombre => [(doc, ⟨nombre, 1⟩)]
  | (d, info) :: rest, doc, nombre =>
    if d = doc then (d, ⟨info.nombre, info.count + 1⟩) :: rest
    else (d, info) :: bump rest doc nombre

/-- `cursos_por_docente[doc]['count']` (0 when absent). -/
def countOf : List (Nat × DocInfo) → Nat → Nat
  | [], _ => 0
  | (d, info) :: rest, doc => if d = doc then info.count else countOf rest doc

/-- `cursos_por_docente.get(doc)`. -/
def infoOf : List (Nat × DocInfo) → Nat → Option DocInfo
  | [], _ => none
  | (d, info) :: rest, doc => if d = doc then some info else infoOf rest doc

/-- The `cursos_por_docente` dict built by both analyzers (lines 220-242 and
259-281): one increment per non-empty block, attributed to the teacher of
the block's first member, then one increment per unit not counted by any
block.  The source indexes `unidades[indices[0]]` and raises when a
non-empty block's first index is out of range; here that access is
totalized with `getD`, and `resolver_horario` calls the analyzers only
behind the `analizarOk` guard that models the raise. -/
def cursosPorDocente (unidades : List Unidad)
    (bloques : List (String × List Nat)) : List (Nat × DocInfo) :=
  (List.range unidades.length).foldl
    (fun m i =>
      if contada bloques i then m
      else bump m (unidades.getD i defaultUnidad).id_docente
        (nombreOf (unidades.getD i defaultUnidad)))
    (bloques.foldl
      (fun m b =>
        match b.2 with
        | [] => m
        | idx :: _ =>
          bump m (unidades.getD idx defaultUnidad).id_docente
            (nombreOf (unidades.getD idx defaultUnidad)))
      [])

/-- Python's `sep.join(l)`. -/
def joinSep (sep : String) : List String → String
  | [] => ""
  | [x] => x
  | x :: y :: rest => x ++ sep ++ joinSep sep (y :: rest)

/-- Line 248 of the source:
`f"{info['nombre']}: {info['count']} cursos (excede por {exceso})"`. -/
def lineaExceso (info : DocInfo) (num_periodos : Nat) : String :=
  info.nombre ++ ": " ++ toString info.count ++ " cursos (excede por "
    ++ toString (info.count - num_periodos) ++ ")"

/-- The `problemas` list of `analizar_infactibilidad` (lines 244-248). -/
def problemasSingle (unidades : List Unidad)
    (bloques_equiv : List (String × List Nat)) (num_periodos : Nat) : List String :=
  ((cursosPorDocente unidades bloques_equiv).filter
    (fun p => num_periodos < p.2.count)).map
    (fun p => lineaExceso p.2 num_periodos)

/-- `analizar_infactibilidad` (lines 216-253). -/
def analizar_infactibilidad (unidades : List Unidad)
    (periodos_validos : List JVal) (grados : List Nat)
    (bloques_equiv : List (String × List Nat))
    (mismo_bloque : List (Nat × Nat)) : String :=
  if (problemasSingle unidades bloques_equiv periodos_validos.length).isEmpty then
    "Restricciones demasiado estrictas para encontrar solucion."
  else
    "No hay solucion sin cruces. Docentes con exceso:\n"
      ++ joinSep "\n" (problemasSingle unidades bloques_equiv periodos_validos.length)

/-- Line 287 of the source:
`f"{info['nombre']}: {info['count']} cursos (excede {max_periodos} slots por {exceso})"`. -/
def lineaExcesoMulti (info : DocInfo) (max_periodos : Nat) : String :=
  info.nombre ++ ": " ++ toString info.count ++ " cursos (excede "
    ++ toString max_periodos ++ " slots por "
    ++ toString (info.count - max_periodos) ++ ")"

/-- The `problemas` list of `analizar_infactibilidad_multidia`
(lines 283-287). -/
def problemasMulti (unidades : List Unidad)
    (bloques_equiv : List (String × List Nat)) (max_periodos : Nat) : List String :=
  ((cursosPorDocente unidades bloques_equiv).filter
    (fun p => max_periodos < p.2.count)).map
    (fun p => lineaExcesoMulti p.2 max_periodos)

/-- `analizar_infactibilidad_multidia` (lines 255-292). -/
def analizar_infactibilidad_multidia (unidades : List Unidad)
    (periodos_por_dia num_dias : Nat) (grados : List Nat)
    (bloques_equiv : List (String × List Nat))
    (mismo_bloque : List (Nat × Nat)) : String :=
  if (problemasMulti unidades bloques_equiv (periodos_por_dia * num_dias)).isEmpty then
    "Restricciones demasiado estrictas para encontrar solucion."
  else
    "No hay solucion sin cruces (" ++ toString num_dias ++ " dias x "
      ++ toString periodos_por_dia ++ " periodos = "
      ++ toString (periodos_por_dia * num_dias) ++ " slots). Docentes:\n"
      ++ joinSep "\n" (problemasMulti unidades bloques_equiv (periodos_por_dia * num_dias))

/-- CP-SAT termination status. -/
inductive CpStatus where
  | OPTIMAL
  | FEASIBLE
  | INFEASIBLE
  | MODEL_INVALID
  | UNKNOWN
deriving DecidableEq, Repr

/-- The solver oracle: a status and, read only on success, one value per
decision variable `asignacion[i]`. -/
structure CpResult where
  status : CpStatus
  value : Nat → Nat

/-- Posting the equivalence constraints indexes `asignacion[indices[k]]`
(lines 72 and 164): an out-of-range index in a block of length ≥ 2 raises a
`KeyError` during model construction, before the solver runs. -/
def buildOk (bloques : List (String × List Nat)) (n : Nat) : Bool :=
  bloques.all (fun b => decide (b.2.length ≤ 1) || b.2.all (fun i => decide (i < n)))

/-- Running either analyzer indexes `unidades[indices[0]]` for every
non-empty block (lines 226 and 265): an out-of-range first index raises an
`IndexError` inside the failure branch (a length-1 block passes the model
build untouched), and `main` then prints the ERROR response instead of the
INFEASIBLE one. -/
def analizarOk (bloques : List (String × List Nat)) (n : Nat) : Bool :=
  bloques.all (fun b =>
    match b.2 with
    | [] => true
    | idx :: _ => decide (idx < n))

/-- Value of the `asignaciones` mapping for one unit. -/
inductive AsigVal where
  | periodo : JVal → AsigVal
  | diaPeriodo : JVal → JVal → AsigVal
deriving DecidableEq, Repr

/-- The JSON document the script prints.  `status`/`modo` are `none` on the
branches whose dict literal lacks those keys. -/
structure Respuesta where
  exito : Bool
  asignaciones : List (Nat × AsigVal)
  mensaje : String
  status : Option String
  modo : Option String
deriving DecidableEq, Repr

/-- The response `main` prints when `resolver_horario` raises (lines
300-307); the message text stands in for `f'Error en solver: {str(e)}'`. -/
def errorRespuesta : Respuesta :=
  { exito := false, asignaciones := [],
    mensaje := "Error en solver: error interno", status := some "ERROR",
    modo := none }

/-- Line 130 of the source:
`dias[dia_idx] if dia_idx < len(dias) else f'DIA_{dia_idx}'`. -/
def slotDia (datos : Datos) (slot : Nat) : JVal :=
  let dia_idx := slot / getPpd datos
  if dia_idx < (getDias datos).length then (getDias datos).getD dia_idx (JVal.num 0)
  else JVal.str ("DIA_" ++ toString dia_idx)

/-- Line 131 of the source:
`periodos_validos[periodo_idx] if periodo_idx < len(periodos_validos) else periodo_idx`. -/
def slotPeriodo (datos : Datos) (slot : Nat) : JVal :=
  let periodo_idx := slot % getPpd datos
  if periodo_idx < datos.periodos_validos.length then
    datos.periodos_validos.getD periodo_idx (JVal.num 0)
  else JVal.num periodo_idx

/-- Multi-day result formatting (lines 124-132): decompose each slot and map
the indices through `dias` / `periodos_validos`, with the two source
fallbacks for out-of-range indices. -/
def formatMulti (datos : Datos) (α : Nat → Nat) : List (Nat × AsigVal) :=
  (List.range datos.unidades.length).map (fun i =>
    (i, AsigVal.diaPeriodo (slotDia datos (α i)) (slotPeriodo datos (α i))))

/-- Single-day result formatting (lines 193-197):
`periodos_validos[solver.Value(asignacion[i])]` with no fallback — an
out-of-range value raises, so the whole mapping is produced only when every
value is in range. -/
def formatSingle (datos : Datos) (α : Nat → Nat) : Option (List (Nat × AsigVal)) :=
  if (List.range datos.unidades.length).all
      (fun i => decide (α i < datos.periodos_validos.length)) then
    some ((List.range datos.unidades.length).map
      (fun i => (i, AsigVal.periodo (datos.periodos_validos.getD (α i) (JVal.num 0)))))
  else none

/-- `resolver_horario` (lines 26-214), with the CP-SAT call replaced by the
oracle `solver`. -/
def resolver_horario (datos : Datos) (solver : CpResult) : Respuesta :=
  let unidades := datos.unidades
  let periodos_validos := datos.periodos_validos
  let bloques_equiv := getBloques datos
  let num_unidades := unidades.length
  if num_unidades = 0 then
    { exito := true, asignaciones := [],
      mensaje := "No hay cursos para asignar", status := none, modo := none }
  else if buildOk bloques_equiv num_unidades = false then
    errorRespuesta
  else if getModo datos then
    if solver.status = CpStatus.OPTIMAL ∨ solver.status = CpStatus.FEASIBLE then
      { exito := true,
        asignaciones := formatMulti datos solver.value,
        mensaje := "Solucion encontrada sin cruces",
        status := some (if solver.status = CpStatus.OPTIMAL then "OPTIMAL" else "FEASIBLE"),
        modo := some "multidia" }
    else if analizarOk bloques_equiv num_unidades then
      { exito := false, asignaciones := [],
        mensaje := analizar_infactibilidad_multidia unidades (getPpd datos)
          (getDias datos).length datos.grados bloques_equiv (mismoBloque bloques_equiv),
        status := some "INFEASIBLE", modo := some "multidia" }
    else
      errorRespuesta
  else
    if solver.status = CpStatus.OPTIMAL ∨ solver.status = CpStatus.FEASIBLE then
      match formatSingle datos solver.value with
      | some res =>
        { exito := true, asignaciones := res,
          mensaje := "Solucion encontrada sin cruces",
          status := some (if solver.status = CpStatus.OPTIMAL then "OPTIMAL" else "FEASIBLE"),
          modo := some "unidia" }
      | none => errorRespuesta
    else if analizarOk bloques_equiv num_unidades then
      { exito := false, asignaciones := [],
        mensaje := analizar_infactibilidad unidades periodos_validos datos.grados
          bloques_equiv (mismoBloque bloques_equiv),
        status := some "INFEASIBLE", modo := some "unidia" }
    else
      errorRespuesta

/-- Satisfaction of the single-day constraint model (lines 155-183):
variable domains, equivalence-block equalities, teacher non-overlap for
pairs not in `mismo_bloque`, and grade non-overlap. -/
def satisfiesSingle (datos : Datos) (α : Nat → Nat) : Prop :=
  (∀ i, i < datos.unidades.length → α i < datos.periodos_validos.length) ∧
  (∀ b ∈ getBloques datos, 1 < b.2.length →
    ∀ k, k < b.2.length → α (b.2.getD 0 0) = α (b.2.getD k 0)) ∧
  (∀ j, j < datos.unidades.length → ∀ i, i < j →
    ((mismoBloque (getBloques datos)).contains (i, j)) = false →
    docenteAt datos i = docenteAt datos j → α i ≠ α j) ∧
  (∀ j, j < datos.unidades.length → ∀ i, i < j →
    gradosInter datos i j = true → α i ≠ α j)

/-- Satisfaction of the multi-day constraint model (lines 50-114): slot
domains, equivalence-block slot equalities, the conditional teacher
constraint (same day forces different period), and grade non-overlap on the
composite slot. -/
def satisfiesMulti (datos : Datos) (α : Nat → Nat) : Prop :=
  (∀ i, i < datos.unidades.length → α i < (getDias datos).length * getPpd datos) ∧
  (∀ b ∈ getBloques datos, 1 < b.2.length →
    ∀ k, k < b.2.length → α (b.2.getD 0 0) = α (b.2.getD k 0)) ∧
  (∀ j, j < datos.unidades.length → ∀ i, i < j →
    ((mismoBloque (getBloques datos)).contains (i, j)) = false →
    docenteAt datos i = docenteAt datos j →
    α i / getPpd datos = α j / getPpd datos →
    α i % getPpd datos ≠ α j % getPpd datos) ∧
  (∀ j, j < datos.unidades.length → ∀ i, i < j →
    gradosInter datos i j = true → α i ≠ α j)

/-- The black-box CP-SAT guarantee: when the oracle reports a solution
(`OPTIMAL` or `FEASIBLE`), its values satisfy the model that was posted for
the active addressing mode. -/
def SolverContract (datos : Datos) (res : CpResult) : Prop :=
  (res.status = CpStatus.OPTIMAL ∨ res.status = CpStatus.FEASIBLE) →
    ((getModo datos = true → satisfiesMulti datos res.value) ∧
     (getModo datos = false → satisfiesSingle datos res.value))

instance (datos : Datos) (α : Nat → Nat) : Decidable (satisfiesSingle datos α) := by
  unfold satisfiesSingle
  infer_instance

instance (datos : Datos) (α : Nat → Nat) : Decidable (satisfiesMulti datos α) := by
  unfold satisfiesMulti
  refine @instDecidableAnd _ _ ?_ (@instDecidableAnd _ _ ?_ (@instDecidableAnd _ _ ?_ ?_)) <;>
    infer_instance

instance (datos : Datos) (res : CpResult) : Decidable (SolverContract datos res) := by
  unfold SolverContract
  infer_instance

/-- The request body accepted by `app.py`'s `/solve` endpoint: `none` models
a field absent from the incoming JSON. -/
structure SolverRequest where
  unidades : List Unidad
  periodos_validos : List JVal
  grados : List Nat
  bloques_equiv : Option (List (String × List Nat))
  modo_multidia : Option Bool
  dias : Option (List JVal)
  periodos_por_dia : Option Nat

/-- `app.py` lines 20-43: pydantic fills the declared defaults
(`bloques_equiv = {}`, `modo_multidia = False`, `dias = []`,
`periodos_por_dia = 0`) and `data.dict()` serializes every field, so the
solver always receives every key. -/
def toDatos (r : SolverRequest) : Datos :=
  { unidades := r.unidades,
    periodos_validos := r.periodos_validos,
    grados := r.grados,
    bloques_equiv := some (r.bloques_equiv.getD []),
    modo_multidia := some (r.modo_multidia.getD false),
    dias := some (r.dias.getD []),
    periodos_por_dia := some (r.periodos_por_dia.getD 0) }

/-! ### Shape lemmas about `resolver_horario`'s branches -/

theorem resolver_empty (datos : Datos) (solver : CpResult)
    (h : datos.unidades = []) :
    resolver_horario datos solver =
      { exito := true, asignaciones := [],
        mensaje := "No hay cursos para asignar", status := none, modo := none } := by
  unfold resolver_horario
  simp [h]

theorem resolver_fail_single (datos : Datos) (solver : CpResult)
    (hne : datos.unidades.length ≠ 0)
    (hbuild : buildOk (getBloques datos) datos.unidades.length = true)
    (hana : analizarOk (getBloques datos) datos.unidades.length = true)
    (hmode : getModo datos = false)
    (hst : ¬(solver.status = CpStatus.OPTIMAL ∨ solver.status = CpStatus.FEASIBLE)) :
    resolver_horario datos solver =
      { exito := false, asignaciones := [],
        mensaje := analizar_infactibilidad datos.unidades datos.periodos_validos
          datos.grados (getBloques datos) (mismoBloque (getBloques datos)),
        status := some "INFEASIBLE", modo := some "unidia" } := by
  unfold resolver_horario
  simp [hne, hbuild, hana, hmode, hst]

theorem resolver_fail_multi (datos : Datos) (solver : CpResult)
    (hne : datos.unidades.length ≠ 0)
    (hbuild : buildOk (getBloques datos) datos.unidades.length = true)
    (hana : analizarOk (getBloques datos) datos.unidades.length = true)
    (hmode : getModo datos = true)
    (hst : ¬(solver.status = CpStatus.OPTIMAL ∨ solver.status = CpStatus.FEASIBLE)) :
    resolver_horario datos solver =
      { exito := false, asignaciones := [],
        mensaje := analizar_infactibilidad_multidia datos.unidades (getPpd datos)
          (getDias datos).length datos.grados (getBloques datos)
          (mismoBloque (getBloques datos)),
        status := some "INFEASIBLE", modo := some "multidia" } := by
  unfold resolver_horario
  simp [hne, hbuild, hana, hmode, hst]

theorem resolver_success_multi (datos : Datos) (solver : CpResult)
    (hne : datos.unidades.length ≠ 0)
    (hmode : getModo datos = true)
    (hex : (resolver_horario datos solver).exito = true) :
    (solver.status = CpStatus.OPTIMAL ∨ solver.status = CpStatus.FEASIBLE) ∧
    (resolver_horario datos solver).asignaciones = formatMulti datos solver.value := by
  unfold resolver_horario at hex ⊢
  by_cases hb : buildOk (getBloques datos) datos.unidades.length = false
  · simp [hne, hb, errorRespuesta] at hex
  by_cases hst : solver.status = CpStatus.OPTIMAL ∨ solver.status = CpStatus.FEASIBLE
  · simp [hne, hb, hmode, hst]
  · by_cases hana : analizarOk (getBloques datos) datos.unidades.length = true <;>
      simp [hne, hb, hmode, hst, hana, errorRespuesta] at hex

theorem resolver_success_single (datos : Datos) (solver : CpResult)
    (hne : datos.unidades.length ≠ 0)
    (hmode : getModo datos = false)
    (hex : (resolver_horario datos solver).exito = true) :
    (solver.status = CpStatus.OPTIMAL ∨ solver.status = CpStatus.FEASIBLE) ∧
    formatSingle datos solver.value = some (resolver_horario datos solver).asignaciones := by
  unfold resolver_horario at hex ⊢
  by_cases hb : buildOk (getBloques datos) datos.unidades.length = false
  · simp [hne, hb, errorRespuesta] at hex
  by_cases hst : solver.status = CpStatus.OPTIMAL ∨ solver.status = CpStatus.FEASIBLE
  · cases hfmt : formatSingle datos solver.value with
    | none => simp [hne, hb, hmode, hst, hfmt, errorRespuesta] at hex
    | some res => simp [hne, hb, hmode, hst, hfmt]
  · by_cases hana : analizarOk (getBloques datos) datos.unidades.length = true <;>
      simp [hne, hb, hmode, hst, hana, errorRespuesta] at hex

theorem resolver_success_status (datos : Datos) (solver : CpResult)
    (hne : datos.unidades.length ≠ 0)
    (hex : (resolver_horario datos solver).exito = true) :
    solver.status = CpStatus.OPTIMAL ∨ solver.status = CpStatus.FEASIBLE := by
  by_cases hmode : getModo datos = true
  · exact (resolver_success_multi datos solver hne hmode hex).1
  · exact (resolver_success_single datos solver hne
      (by simpa using hmode) hex).1

theorem lookup_map_pair {β : Type} (f : Nat → β) :
    ∀ (l : List Nat), l.Nodup → ∀ a ∈ l,
      ((l.map (fun i => (i, f i))).lookup a) = some (f a) := by
  intro l
  induction l with
  | nil => intro _ a ha; cases ha
  | cons x t ih =>
    intro hnd a ha
    by_cases hax : a = x
    · subst hax
      simp [List.lookup]
    · have hbeq : (a == x) = false := by simp [hax]
      have hat : a ∈ t := by
        rcases List.mem_cons.mp ha with h | h
        · exact absurd h hax
        · exact h
      simp only [List.map_cons, List.lookup, hbeq]
      exact ih (List.Nodup.of_cons hnd) a hat

theorem lookup_formatMulti (datos : Datos) (α : Nat → Nat) (i : Nat)
    (h : i < datos.unidades.length) :
    (formatMulti datos α).lookup i =
      some (AsigVal.diaPeriodo (slotDia datos (α i)) (slotPeriodo datos (α i))) := by
  unfold formatMulti
  exact lookup_map_pair _ _ (List.nodup_range _) i (List.mem_range.mpr h)

theorem formatSingle_some (datos : Datos) (α : Nat → Nat)
    (res : List (Nat × AsigVal)) (h : formatSingle datos α = some res) :
    (∀ i, i < datos.unidades.length → α i < datos.periodos_validos.length) ∧
    res = (List.range datos.unidades.length).map
      (fun i => (i, AsigVal.periodo (datos.periodos_validos.getD (α i) (JVal.num 0)))) := by
  unfold formatSingle at h
  split at h
  case isTrue hall =>
    refine ⟨fun i hi => ?_, (Option.some_injective _ h).symm⟩
    have := List.all_eq_true.mp hall i (List.mem_range.mpr hi)
    exact of_decide_eq_true this
  case isFalse => cases h

/-! ### Claims C5, C6, C9 -/

/-- A non-empty single-day input with a length-1 equivalence block whose
only index (5) is out of range: the model build never touches
`asignacion[5]` (only blocks with two or more members are indexed at lines
161-164), the capacity conflict makes CP-SAT report INFEASIBLE, and then
the analyzer itself raises `IndexError` at `unidades[5]` (line 226). -/
def datosC5bad : Datos :=
  { unidades := [⟨7, [], none⟩, ⟨7, [], some "Ana"⟩],
    periodos_validos := [JVal.num 10],
    grados := [],
    bloques_equiv := some [("B", [5])],
    modo_multidia := some false,
    dias := none, periodos_por_dia := none }

def solverC5bad : CpResult := { status := CpStatus.INFEASIBLE, value := fun _ => 0 }

/-- Claim C5 is false as stated: on `datosC5bad` — non-empty, model built,
solver status INFEASIBLE — the response carries status `"ERROR"` (the
failure branch raises in `analizar_infactibilidad` and `main` prints the
error response), not `"INFEASIBLE"`. -/
theorem claim_C5_counterexample :
    datosC5bad.unidades.length ≠ 0 ∧
    buildOk (getBloques datosC5bad) datosC5bad.unidades.length = true ∧
    ¬(solverC5bad.status = CpStatus.OPTIMAL ∨ solverC5bad.status = CpStatus.FEASIBLE) ∧
    (resolver_horario datosC5bad solverC5bad).status ≠ some "INFEASIBLE" ∧
    (resolver_horario datosC5bad solverC5bad).status = some "ERROR" := by
  decide

/-- Claim C5 amended: for every non-empty input whose model builds and
whose non-empty equivalence blocks all have an in-range first index (so the
analyzer itself cannot raise), if the solver reports any status other than
OPTIMAL or FEASIBLE (including budget exhaustion, `UNKNOWN`), the response
has `exito = false`, an empty `asignaciones` mapping and status
`"INFEASIBLE"` — timeout and proven infeasibility are not distinguished.
Without the in-range condition the failure branch can instead answer with
status `"ERROR"`. -/
theorem claim_C5_status_infeasible (datos : Datos) (solver : CpResult)
    (hne : datos.unidades.length ≠ 0)
    (hbuild : buildOk (getBloques datos) datos.unidades.length = true)
    (hana : analizarOk (getBloques datos) datos.unidades.length = true)
    (hst : ¬(solver.status = CpStatus.OPTIMAL ∨ solver.status = CpStatus.FEASIBLE)) :
    (resolver_horario datos solver).exito = false ∧
    (resolver_horario datos solver).asignaciones = [] ∧
    (resolver_horario datos solver).status = some "INFEASIBLE" := by
  by_cases hmode : getModo datos = true
  · rw [resolver_fail_multi datos solver hne hbuild hana hmode hst]
    exact ⟨rfl, rfl, rfl⟩
  · rw [resolver_fail_single datos solver hne hbuild hana (by simpa using hmode) hst]
    exact ⟨rfl, rfl, rfl⟩

def datosC5 : Datos :=
  { unidades := [⟨7, [], none⟩, ⟨7, [], some "Ana"⟩],
    periodos_validos := [JVal.num 10],
    grados := [],
    bloques_equiv := some [],
    modo_multidia := some false,
    dias := none, periodos_por_dia := none }

def solverUnknown : CpResult := { status := CpStatus.UNKNOWN, value := fun _ => 0 }

theorem claim_C5_witness :
    (datosC5.unidades.length ≠ 0 ∧
     buildOk (getBloques datosC5) datosC5.unidades.length = true ∧
     analizarOk (getBloques datosC5) datosC5.unidades.length = true ∧
     ¬(solverUnknown.status = CpStatus.OPTIMAL ∨ solverUnknown.status = CpStatus.FEASIBLE)) ∧
    ((resolver_horario datosC5 solverUnknown).exito = false ∧
     (resolver_horario datosC5 solverUnknown).asignaciones = [] ∧
     (resolver_horario datosC5 solverUnknown).status = some "INFEASIBLE") :=
  ⟨⟨by decide, by decide, by decide, by decide⟩,
   claim_C5_status_infeasible datosC5 solverUnknown (by decide) (by decide)
     (by decide) (by decide)⟩

/-- Claim C6: an empty `unidades` list yields `exito = true` with an empty
assignment immediately; the response does not depend on the solver oracle at
all (the solver is never invoked), in both addressing modes. -/
theorem claim_C6_empty_input (datos : Datos) (solver : CpResult)
    (h : datos.unidades = []) :
    resolver_horario datos solver =
      { exito := true, asignaciones := [],
        mensaje := "No hay cursos para asignar", status := none, modo := none } ∧
    (∀ solver' : CpResult, resolver_horario datos solver = resolver_horario datos solver') := by
  refine ⟨resolver_empty datos solver h, fun solver' => ?_⟩
  rw [resolver_empty datos solver h, resolver_empty datos solver' h]

def datosVacio : Datos :=
  { unidades := [], periodos_validos := [JVal.num 10], grados := [],
    bloques_equiv := none, modo_multidia := some true,
    dias := some [JVal.str "LUN"], periodos_por_dia := none }

theorem claim_C6_witness :
    datosVacio.unidades = [] ∧
    (resolver_horario datosVacio solverUnknown =
      { exito := true, asignaciones := [],
        mensaje := "No hay cursos para asignar", status := none, modo := none } ∧
     (∀ solver' : CpResult,
        resolver_horario datosVacio solverUnknown = resolver_horario datosVacio solver')) :=
  ⟨rfl, claim_C6_empty_input datosVacio solverUnknown rfl⟩

/-- Claim C9: every successful response assigns exactly the unit indices
`0 .. n-1`, in order, as the keys of `asignaciones` — no unit is missing and
no extra key appears. -/
theorem claim_C9_complete_keys (datos : Datos) (solver : CpResult)
    (hex : (resolver_horario datos solver).exito = true) :
    (resolver_horario datos solver).asignaciones.map Prod.fst =
      List.range datos.unidades.length := by
  by_cases hne : datos.unidades.length = 0
  · have h0 : datos.unidades = [] := List.length_eq_zero.mp hne
    rw [resolver_empty datos solver h0]
    simp [h0]
  · by_cases hmode : getModo datos = true
    · obtain ⟨_, hasig⟩ := resolver_success_multi datos solver hne hmode hex
      rw [hasig]
      unfold formatMulti
      simp [Function.comp_def]
    · obtain ⟨_, hfmt⟩ := resolver_success_single datos solver hne
        (by simpa using hmode) hex
      obtain ⟨_, hres⟩ := formatSingle_some datos solver.value _ hfmt
      rw [hres]
      simp [Function.comp_def]

def datosC9 : Datos :=
  { unidades := [⟨7, [1], none⟩, ⟨8, [2], none⟩],
    periodos_validos := [JVal.num 10, JVal.num 20],
    grados := [1, 2],
    bloques_equiv := some [],
    modo_multidia := some false,
    dias := none, periodos_por_dia := none }

def solverC9 : CpResult := { status := CpStatus.OPTIMAL, value := fun i => i % 2 }

theorem claim_C9_witness :
    (resolver_horario datosC9 solverC9).exito = true ∧
    (resolver_horario datosC9 solverC9).asignaciones.map Prod.fst =
      List.range datosC9.unidades.length :=
  ⟨by decide, claim_C9_complete_keys datosC9 solverC9 (by decide)⟩

/-! ### Claim C7 (corrected) -/

/-- A multi-day request that does not supply `periodos_por_dia`. -/
def requestSinPpd : SolverRequest :=
  { unidades := [⟨1, [], none⟩],
    periodos_validos := [JVal.num 10, JVal.num 20],
    grados := [],
    bloques_equiv := none,
    modo_multidia := some true,
    dias := some [JVal.str "LUN"],
    periodos_por_dia := none }

/-- Claim C7 is false as stated: a multi-day request without
`periodos_por_dia` reaches the solver with the key present and equal to the
pydantic default 0 (because `data.dict()` serializes every field), so the
periods-per-day used is 0, not `len(periodos_validos)` (= 2 here). -/
theorem claim_C7_counterexample :
    requestSinPpd.periodos_por_dia = none ∧
    getModo (toDatos requestSinPpd) = true ∧
    getPpd (toDatos requestSinPpd) = 0 ∧
    getPpd (toDatos requestSinPpd) ≠ (toDatos requestSinPpd).periodos_validos.length := by
  decide

/-- Claim C7 amended: the `len(periodos_validos)` fallback applies only when
the key `periodos_por_dia` is absent from the JSON the solver script itself
reads; a request that reaches the solver through the API boundary always
carries the key (with pydantic default 0 when unsupplied), so the value used
is exactly the request's `periodos_por_dia` (0 by default), never the
fallback. -/
theorem claim_C7_ppd_fallback :
    (∀ d : Datos, d.periodos_por_dia = none →
      getPpd d = d.periodos_validos.length) ∧
    (∀ r : SolverRequest, getPpd (toDatos r) = r.periodos_por_dia.getD 0) := by
  constructor
  · intro d h
    simp [getPpd, h]
  · intro r
    simp [getPpd, toDatos]

/-- A solver-level input whose JSON lacks the `periodos_por_dia` key. -/
def datosSinPpd : Datos :=
  { unidades := [⟨1, [], none⟩],
    periodos_validos := [JVal.num 10, JVal.num 20],
    grados := [],
    bloques_equiv := none,
    modo_multidia := some true,
    dias := some [JVal.str "LUN"],
    periodos_por_dia := none }

theorem claim_C7_witness :
    (datosSinPpd.periodos_por_dia = none ∧
     getPpd datosSinPpd = datosSinPpd.periodos_validos.length) ∧
    getPpd (toDatos requestSinPpd) = requestSinPpd.periodos_por_dia.getD 0 :=
  ⟨⟨rfl, claim_C7_ppd_fallback.1 datosSinPpd rfl⟩,
   claim_C7_ppd_fallback.2 requestSinPpd⟩

/-! ### Claims C8 and C10 (result labelling) -/

/-- Claim C8: in a successful response, whenever the computed period index is
in range of `periodos_validos` (and the day index in range of `dias` in
multi-day mode), the returned labels are exactly the elements of the input
lists at those indices. -/
theorem claim_C8_roundtrip_labels (datos : Datos) (solver : CpResult)
    (hex : (resolver_horario datos solver).exito = true) :
    (getModo datos = false → ∀ i, i < datos.unidades.length →
      solver.value i < datos.periodos_validos.length →
      ((resolver_horario datos solver).asignaciones.lookup i) =
        some (AsigVal.periodo
          (datos.periodos_validos.getD (solver.value i) (JVal.num 0)))) ∧
    (getModo datos = true → ∀ i, i < datos.unidades.length →
      solver.value i / getPpd datos < (getDias datos).length →
      solver.value i % getPpd datos < datos.periodos_validos.length →
      ((resolver_horario datos solver).asignaciones.lookup i) =
        some (AsigVal.diaPeriodo
          ((getDias datos).getD (solver.value i / getPpd datos) (JVal.num 0))
          (datos.periodos_validos.getD (solver.value i % getPpd datos) (JVal.num 0)))) := by
  constructor
  · intro hmode i hi hlt
    have hne : datos.unidades.length ≠ 0 := by omega
    obtain ⟨_, hfmt⟩ := resolver_success_single datos solver hne hmode hex
    obtain ⟨_, hres⟩ := formatSingle_some datos solver.value _ hfmt
    rw [hres]
    exact lookup_map_pair _ _ (List.nodup_range _) i (List.mem_range.mpr hi)
  · intro hmode i hi h1 h2
    have hne : datos.unidades.length ≠ 0 := by omega
    obtain ⟨_, hasig⟩ := resolver_success_multi datos solver hne hmode hex
    rw [hasig, lookup_formatMulti datos solver.value i hi]
    unfold slotDia slotPeriodo
    simp [h1, h2]

def datosC8 : Datos :=
  { unidades := [⟨7, [1], none⟩],
    periodos_validos := [JVal.num 10, JVal.num 20],
    grados := [1],
    bloques_equiv := some [],
    modo_multidia := some false,
    dias := none, periodos_por_dia := none }

def solverC8 : CpResult := { status := CpStatus.FEASIBLE, value := fun _ => 1 }

theorem claim_C8_witness :
    (resolver_horario datosC8 solverC8).exito = true ∧
    ((resolver_horario datosC8 solverC8).asignaciones.lookup 0) =
      some (AsigVal.periodo
        (datosC8.periodos_validos.getD (solverC8.value 0) (JVal.num 0))) :=
  ⟨by decide,
   (claim_C8_roundtrip_labels datosC8 solverC8 (by decide)).1 rfl 0
     (by decide) (by decide)⟩

/-- Claim C10: in a successful multi-day response the two out-of-range
fallbacks differ in kind — an out-of-range day index produces the synthetic
string label `DIA_<index>`, while an out-of-range period index produces the
raw integer index itself. -/
theorem claim_C10_fallback_kinds (datos : Datos) (solver : CpResult)
    (hmode : getModo datos = true)
    (hex : (resolver_horario datos solver).exito = true) :
    ∀ i, i < datos.unidades.length →
      ((getDias datos).length ≤ solver.value i / getPpd datos →
        ((resolver_horario datos solver).asignaciones.lookup i) =
          some (AsigVal.diaPeriodo
            (JVal.str ("DIA_" ++ toString (solver.value i / getPpd datos)))
            (slotPeriodo datos (solver.value i)))) ∧
      (datos.periodos_validos.length ≤ solver.value i % getPpd datos →
        ((resolver_horario datos solver).asignaciones.lookup i) =
          some (AsigVal.diaPeriodo
            (slotDia datos (solver.value i))
            (JVal.num (solver.value i % getPpd datos)))) := by
  intro i hi
  have hne : datos.unidades.length ≠ 0 := by omega
  obtain ⟨_, hasig⟩ := resolver_success_multi datos solver hne hmode hex
  constructor
  · intro hdia
    rw [hasig, lookup_formatMulti datos solver.value i hi]
    have : ¬(solver.value i / getPpd datos < (getDias datos).length) := by omega
    unfold slotDia
    simp [this]
  · intro hper
    rw [hasig, lookup_formatMulti datos solver.value i hi]
    have : ¬(solver.value i % getPpd datos < datos.periodos_validos.length) := by omega
    unfold slotPeriodo
    simp [this]

def datosC10 : Datos :=
  { unidades := [⟨7, [1], none⟩],
    periodos_validos := [],
    grados := [1],
    bloques_equiv := some [],
    modo_multidia := some true,
    dias := some [],
    periodos_por_dia := some 2 }

def solverC10 : CpResult := { status := CpStatus.FEASIBLE, value := fun _ => 5 }

theorem claim_C10_witness :
    ((resolver_horario datosC10 solverC10).exito = true ∧
     (getDias datosC10).length ≤ solverC10.value 0 / getPpd datosC10 ∧
     datosC10.periodos_validos.length ≤ solverC10.value 0 % getPpd datosC10) ∧
    ((resolver_horario datosC10 solverC10).asignaciones.lookup 0) =
      some (AsigVal.diaPeriodo
        (JVal.str ("DIA_" ++ toString (solverC10.value 0 / getPpd datosC10)))
        (slotPeriodo datosC10 (solverC10.value 0))) :=
  ⟨⟨by decide, by decide, by decide⟩,
   ((claim_C10_fallback_kinds datosC10 solverC10 rfl (by decide)) 0
     (by decide)).1 (by decide)⟩

/-! ### Helper lemmas for the constraint model -/

theorem resolver_success_buildOk (datos : Datos) (solver : CpResult)
    (hne : datos.unidades.length ≠ 0)
    (hex : (resolver_horario datos solver).exito = true) :
    buildOk (getBloques datos) datos.unidades.length = true := by
  unfold resolver_horario at hex
  by_cases hb : buildOk (getBloques datos) datos.unidades.length = false
  · simp [hne, hb, errorRespuesta] at hex
  · simpa using hb

theorem buildOk_mem_lt {bloques : List (String × List Nat)} {n : Nat}
    (hbuild : buildOk bloques n = true) {b : String × List Nat}
    (hmem : b ∈ bloques) (hlen : 1 < b.2.length) {a : Nat} (ha : a ∈ b.2) :
    a < n := by
  have hb := List.all_eq_true.mp hbuild b hmem
  rcases Bool.or_eq_true_iff.mp hb with h | h
  · exact absurd (of_decide_eq_true h) (by omega)
  · exact of_decide_eq_true (List.all_eq_true.mp h a ha)

theorem getD_of_mem {l : List Nat} {a : Nat} (ha : a ∈ l) :
    ∃ k, k < l.length ∧ l.getD k 0 = a := by
  obtain ⟨k, hk, hek⟩ := List.mem_iff_getElem.mp ha
  refine ⟨k, hk, ?_⟩
  rw [List.getD_eq_getElem?_getD, List.getElem?_eq_getElem hk]
  simpa using hek

theorem block_values_equal {α : Nat → Nat} {bloques : List (String × List Nat)}
    (hb : ∀ b ∈ bloques, 1 < b.2.length →
      ∀ k, k < b.2.length → α (b.2.getD 0 0) = α (b.2.getD k 0))
    {b : String × List Nat} (hmem : b ∈ bloques) (hlen : 1 < b.2.length)
    {a c : Nat} (ha : a ∈ b.2) (hc : c ∈ b.2) :
    α a = α c := by
  obtain ⟨ka, hka, heka⟩ := getD_of_mem ha
  obtain ⟨kc, hkc, hekc⟩ := getD_of_mem hc
  have h1 := hb b hmem hlen ka hka
  have h2 := hb b hmem hlen kc hkc
  rw [heka] at h1
  rw [hekc] at h2
  rw [← h1, ← h2]

theorem pairKey_lt {i j : Nat} (h : i < j) : pairKey i j = (i, j) := by
  unfold pairKey
  rw [min_eq_left h.le, max_eq_right h.le]

theorem pairKey_gt {i j : Nat} (h : j < i) : pairKey i j = (j, i) := by
  unfold pairKey
  rw [min_eq_right h.le, max_eq_left h.le]

theorem gradosInter_symm {d : Datos} {i j : Nat}
    (h : gradosInter d i j = true) : gradosInter d j i = true := by
  unfold gradosInter at h ⊢
  rw [List.any_eq_true] at h ⊢
  obtain ⟨g, hg1, hg2⟩ := h
  exact ⟨g, List.mem_of_elem_eq_true hg2, List.elem_eq_true_of_mem hg1⟩

theorem teacher_sep_single {datos : Datos} {α : Nat → Nat}
    (hsat : satisfiesSingle datos α) {i j : Nat}
    (hi : i < datos.unidades.length) (hj : j < datos.unidades.length)
    (hij : i ≠ j)
    (hpair : ((mismoBloque (getBloques datos)).contains (pairKey i j)) = false)
    (hdoc : docenteAt datos i = docenteAt datos j) :
    α i ≠ α j := by
  rcases lt_trichotomy i j with hlt | heq | hgt
  · rw [pairKey_lt hlt] at hpair
    exact hsat.2.2.1 j hj i hlt hpair hdoc
  · exact absurd heq hij
  · rw [pairKey_gt hgt] at hpair
    exact (hsat.2.2.1 i hi j hgt hpair hdoc.symm).symm

theorem teacher_sep_multi {datos : Datos} {α : Nat → Nat}
    (hsat : satisfiesMulti datos α) {i j : Nat}
    (hi : i < datos.unidades.length) (hj : j < datos.unidades.length)
    (hij : i ≠ j)
    (hpair : ((mismoBloque (getBloques datos)).contains (pairKey i j)) = false)
    (hdoc : docenteAt datos i = docenteAt datos j)
    (hdia : α i / getPpd datos = α j / getPpd datos) :
    α i % getPpd datos ≠ α j % getPpd datos := by
  rcases lt_trichotomy i j with hlt | heq | hgt
  · rw [pairKey_lt hlt] at hpair
    exact hsat.2.2.1 j hj i hlt hpair hdoc hdia
  · exact absurd heq hij
  · rw [pairKey_gt hgt] at hpair
    exact (hsat.2.2.1 i hi j hgt hpair hdoc.symm hdia.symm).symm

theorem grade_sep_single {datos : Datos} {α : Nat → Nat}
    (hsat : satisfiesSingle datos α) {i j : Nat}
    (hi : i < datos.unidades.length) (hj : j < datos.unidades.length)
    (hij : i ≠ j) (hg : gradosInter datos i j = true) :
    α i ≠ α j := by
  rcases lt_trichotomy i j with hlt | heq | hgt
  · exact hsat.2.2.2 j hj i hlt hg
  · exact absurd heq hij
  · exact (hsat.2.2.2 i hi j hgt (gradosInter_symm hg)).symm

theorem grade_sep_multi {datos : Datos} {α : Nat → Nat}
    (hsat : satisfiesMulti datos α) {i j : Nat}
    (hi : i < datos.unidades.length) (hj : j < datos.unidades.length)
    (hij : i ≠ j) (hg : gradosInter datos i j = true) :
    α i ≠ α j := by
  rcases lt_trichotomy i j with hlt | heq | hgt
  · exact hsat.2.2.2 j hj i hlt hg
  · exact absurd heq hij
  · exact (hsat.2.2.2 i hi j hgt (gradosInter_symm hg)).symm

/-! ### Claims C1, C2, C3 -/

/-- Claim C1: in every successful solve, all members of an equivalence block
with at least two member indices receive the identical slot — the same
underlying slot value, hence the same returned entry (same period in
single-day mode, same (dia, periodo) pair in multi-day mode). -/
theorem claim_C1_equivalence (datos : Datos) (solver : CpResult)
    (hcon : SolverContract datos solver)
    (hne : datos.unidades.length ≠ 0)
    (hex : (resolver_horario datos solver).exito = true) :
    ∀ b ∈ getBloques datos, 1 < b.2.length →
      ∀ a ∈ b.2, ∀ c ∈ b.2,
        solver.value a = solver.value c ∧
        ((resolver_horario datos solver).asignaciones.lookup a) =
          ((resolver_horario datos solver).asignaciones.lookup c) := by
  intro b hmem hlen a ha c hc
  have hst := resolver_success_status datos solver hne hex
  have hbuild := resolver_success_buildOk datos solver hne hex
  have hla : a < datos.unidades.length := buildOk_mem_lt hbuild hmem hlen ha
  have hlc : c < datos.unidades.length := buildOk_mem_lt hbuild hmem hlen hc
  by_cases hmode : getModo datos = true
  · have hsat := (hcon hst).1 hmode
    have hval : solver.value a = solver.value c :=
      block_values_equal hsat.2.1 hmem hlen ha hc
    obtain ⟨_, hasig⟩ := resolver_success_multi datos solver hne hmode hex
    refine ⟨hval, ?_⟩
    rw [hasig, lookup_formatMulti datos solver.value a hla,
      lookup_formatMulti datos solver.value c hlc, hval]
  · have hmode' : getModo datos = false := by simpa using hmode
    have hsat := (hcon hst).2 hmode'
    have hval : solver.value a = solver.value c :=
      block_values_equal hsat.2.1 hmem hlen ha hc
    obtain ⟨_, hfmt⟩ := resolver_success_single datos solver hne hmode' hex
    obtain ⟨_, hres⟩ := formatSingle_some datos solver.value _ hfmt
    refine ⟨hval, ?_⟩
    rw [hres, lookup_map_pair _ _ (List.nodup_range _) a (List.mem_range.mpr hla),
      lookup_map_pair _ _ (List.nodup_range _) c (List.mem_range.mpr hlc), hval]

def datosC1 : Datos :=
  { unidades := [⟨7, [1], none⟩, ⟨7, [2], some "Ana"⟩, ⟨8, [1], none⟩],
    periodos_validos := [JVal.num 10, JVal.num 20],
    grados := [1, 2],
    bloques_equiv := some [("B1", [0, 1])],
    modo_multidia := some true,
    dias := some [JVal.str "LUN", JVal.str "MAR"],
    periodos_por_dia := some 2 }

def solverC1 : CpResult :=
  { status := CpStatus.FEASIBLE, value := fun i => if i = 2 then 2 else 1 }

theorem claim_C1_witness :
    (SolverContract datosC1 solverC1 ∧
     datosC1.unidades.length ≠ 0 ∧
     (resolver_horario datosC1 solverC1).exito = true) ∧
    (solverC1.value 0 = solverC1.value 1 ∧
     ((resolver_horario datosC1 solverC1).asignaciones.lookup 0) =
       ((resolver_horario datosC1 solverC1).asignaciones.lookup 1)) :=
  ⟨⟨by decide, by decide, by decide⟩,
   claim_C1_equivalence datosC1 solverC1 (by decide) (by decide) (by decide)
     ("B1", [0, 1]) (by decide) (by decide) 0 (by decide) 1 (by decide)⟩

/-- Claim C2: in every successful solve, two distinct units that share a
teacher and are not a pair within some equivalence block get different
assignments — different periods in single-day mode; in multi-day mode, if
they share a day their periods differ. -/
theorem claim_C2_teacher_nonoverlap (datos : Datos) (solver : CpResult)
    (hcon : SolverContract datos solver)
    (hex : (resolver_horario datos solver).exito = true)
    (i j : Nat) (hij : i ≠ j)
    (hi : i < datos.unidades.length) (hj : j < datos.unidades.length)
    (hpair : ((mismoBloque (getBloques datos)).contains (pairKey i j)) = false)
    (hdoc : docenteAt datos i = docenteAt datos j) :
    (getModo datos = false → solver.value i ≠ solver.value j) ∧
    (getModo datos = true →
      solver.value i / getPpd datos = solver.value j / getPpd datos →
      solver.value i % getPpd datos ≠ solver.value j % getPpd datos) := by
  have hne : datos.unidades.length ≠ 0 := by omega
  have hst := resolver_success_status datos solver hne hex
  constructor
  · intro hmode
    exact teacher_sep_single ((hcon hst).2 hmode) hi hj hij hpair hdoc
  · intro hmode
    exact teacher_sep_multi ((hcon hst).1 hmode) hi hj hij hpair hdoc

def datosC2 : Datos :=
  { unidades := [⟨7, [1], none⟩, ⟨7, [2], none⟩],
    periodos_validos := [JVal.num 10, JVal.num 20],
    grados := [1, 2],
    bloques_equiv := some [],
    modo_multidia := some false,
    dias := none, periodos_por_dia := none }

def solverC2 : CpResult := { status := CpStatus.OPTIMAL, value := fun i => i % 2 }

theorem claim_C2_witness :
    (SolverContract datosC2 solverC2 ∧
     (resolver_horario datosC2 solverC2).exito = true ∧
     ((mismoBloque (getBloques datosC2)).contains (pairKey 0 1)) = false ∧
     docenteAt datosC2 0 = docenteAt datosC2 1) ∧
    ((getModo datosC2 = false → solverC2.value 0 ≠ solverC2.value 1) ∧
     (getModo datosC2 = true →
       solverC2.value 0 / getPpd datosC2 = solverC2.value 1 / getPpd datosC2 →
       solverC2.value 0 % getPpd datosC2 ≠ solverC2.value 1 % getPpd datosC2)) :=
  ⟨⟨by decide, by decide, by decide, by decide⟩,
   claim_C2_teacher_nonoverlap datosC2 solverC2 (by decide) (by decide) 0 1
     (by decide) (by decide) (by decide) (by decide) (by decide)⟩

/-- Claim C3: in every successful solve, two distinct units whose grade sets
intersect get different composite slots — different periods in single-day
mode, different (dia, periodo) slots in multi-day mode — with no exemption
for units in the same equivalence block. -/
theorem claim_C3_grade_nonoverlap (datos : Datos) (solver : CpResult)
    (hcon : SolverContract datos solver)
    (hex : (resolver_horario datos solver).exito = true)
    (i j : Nat) (hij : i ≠ j)
    (hi : i < datos.unidades.length) (hj : j < datos.unidades.length)
    (hg : gradosInter datos i j = true) :
    solver.value i ≠ solver.value j ∧
    (getModo datos = true →
      (solver.value i / getPpd datos, solver.value i % getPpd datos) ≠
      (solver.value j / getPpd datos, solver.value j % getPpd datos)) := by
  have hne : datos.unidades.length ≠ 0 := by omega
  have hst := resolver_success_status datos solver hne hex
  by_cases hmode : getModo datos = true
  · have hsat := (hcon hst).1 hmode
    have hval : solver.value i ≠ solver.value j :=
      grade_sep_multi hsat hi hj hij hg
    refine ⟨hval, fun _ hpairEq => hval ?_⟩
    have hdiv : solver.value i / getPpd datos = solver.value j / getPpd datos :=
      congrArg Prod.fst hpairEq
    have hmod : solver.value i % getPpd datos = solver.value j % getPpd datos :=
      congrArg Prod.snd hpairEq
    calc solver.value i
        = getPpd datos * (solver.value i / getPpd datos) + solver.value i % getPpd datos :=
          (Nat.div_add_mod _ _).symm
      _ = getPpd datos * (solver.value j / getPpd datos) + solver.value j % getPpd datos := by
          rw [hdiv, hmod]
      _ = solver.value j := Nat.div_add_mod _ _
  · have hmode' : getModo datos = false := by simpa using hmode
    have hsat := (hcon hst).2 hmode'
    exact ⟨grade_sep_single hsat hi hj hij hg, fun h => absurd h hmode⟩

def datosC3 : Datos :=
  { unidades := [⟨7, [1], none⟩, ⟨8, [1, 2], none⟩],
    periodos_validos := [JVal.num 10, JVal.num 20],
    grados := [1, 2],
    bloques_equiv := some [],
    modo_multidia := some false,
    dias := none, periodos_por_dia := none }

def solverC3 : CpResult := { status := CpStatus.OPTIMAL, value := fun i => i % 2 }

theorem claim_C3_witness :
    (SolverContract datosC3 solverC3 ∧
     (resolver_horario datosC3 solverC3).exito = true ∧
     gradosInter datosC3 0 1 = true) ∧
    (solverC3.value 0 ≠ solverC3.value 1 ∧
     (getModo datosC3 = true →
       (solverC3.value 0 / getPpd datosC3, solverC3.value 0 % getPpd datosC3) ≠
       (solverC3.value 1 / getPpd datosC3, solverC3.value 1 % getPpd datosC3))) :=
  ⟨⟨by decide, by decide, by decide⟩,
   claim_C3_grade_nonoverlap datosC3 solverC3 (by decide) (by decide) 0 1
     (by decide) (by decide) (by decide) (by decide)⟩

/-! ### Claim C4: capacity diagnosis.

The obligation count the analyzer computes for one teacher equals the length
of an explicit list of representative unit indices (`obligaciones`): the
first member of every non-empty block attributed to that teacher, plus every
unit of that teacher that belongs to no block.  Under the implicit
block-partition precondition those representatives are pairwise
slot-separated by the teacher constraints, so a count above the number of
periods makes the single-day model unsatisfiable. -/

/-- Representative unit indices of one teacher's scheduling obligations, as
counted by the analyzers. -/
def obligaciones (unidades : List Unidad)
    (bloques : List (String × List Nat)) (doc : Nat) : List Nat :=
  (bloques.filterMap (fun b =>
    match b.2 with
    | [] => none
    | idx :: _ =>
      if (unidades.getD idx defaultUnidad).id_docente = doc then some idx
      else none))
  ++ ((List.range unidades.length).filter (fun i =>
    !(contada bloques i) && ((unidades.getD i defaultUnidad).id_docente == doc)))

theorem countOf_bump (m : List (Nat × DocInfo)) (d doc : Nat) (nm : String) :
    countOf (bump m d nm) doc = countOf m doc + (if d = doc then 1 else 0) := by
  induction m with
  | nil =>
    by_cases h : d = doc <;> simp [bump, countOf, h]
  | cons p rest ih =>
    obtain ⟨d', info⟩ := p
    by_cases h1 : d' = d
    · subst h1
      by_cases h2 : d' = doc <;> simp [bump, countOf, h2]
    · by_cases h2 : d' = doc
      · subst h2
        have h3 : d ≠ d' := fun h => h1 h.symm
        simp [bump, countOf, h1, h3]
      · simp [bump, countOf, h1, h2, ih]

theorem countOf_foldl_bloques (doc : Nat) (unidades : List Unidad) :
    ∀ (l : List (String × List Nat)) (m : List (Nat × DocInfo)),
      countOf (l.foldl
        (fun m b =>
          match b.2 with
          | [] => m
          | idx :: _ =>
            bump m (unidades.getD idx defaultUnidad).id_docente
              (nombreOf (unidades.getD idx defaultUnidad)))
        m) doc
      = countOf m doc + (l.filterMap (fun b =>
          match b.2 with
          | [] => none
          | idx :: _ =>
            if (unidades.getD idx defaultUnidad).id_docente = doc then some idx
            else none)).length := by
  intro l
  induction l with
  | nil => simp
  | cons b t ih =>
    intro m
    rw [List.foldl_cons, List.filterMap_cons]
    cases hb : b.2 with
    | nil =>
      simp only [hb, ih]
    | cons idx rest =>
      simp only [hb]
      rw [ih, countOf_bump]
      by_cases hd : (unidades.getD idx defaultUnidad).id_docente = doc
      · rw [if_pos hd, if_pos hd]
        dsimp only
        simp only [List.length_cons]
        omega
      · rw [if_neg hd, if_neg hd]
        dsimp only
        omega

theorem countOf_foldl_range (doc : Nat) (unidades : List Unidad)
    (bloques : List (String × List Nat)) :
    ∀ (l : List Nat) (m : List (Nat × DocInfo)),
      countOf (l.foldl
        (fun m i =>
          if contada bloques i then m
          else bump m (unidades.getD i defaultUnidad).id_docente
            (nombreOf (unidades.getD i defaultUnidad)))
        m) doc
      = countOf m doc + (l.filter (fun i =>
          !(contada bloques i) && ((unidades.getD i defaultUnidad).id_docente == doc))).length := by
  intro l
  induction l with
  | nil => simp
  | cons i t ih =>
    intro m
    rw [List.foldl_cons, List.filter_cons]
    by_cases hc : contada bloques i = true
    · have hp : (!(contada bloques i)
          && ((unidades.getD i defaultUnidad).id_docente == doc)) = false := by
        rw [hc]
        simp
      rw [if_pos hc, hp, if_neg (by simp)]
      exact ih m
    · have hc' : contada bloques i = false := by simpa using hc
      have hp : (!(contada bloques i)
          && ((unidades.getD i defaultUnidad).id_docente == doc))
          = ((unidades.getD i defaultUnidad).id_docente == doc) := by
        rw [hc']
        simp
      rw [if_neg hc, ih, countOf_bump, hp]
      by_cases hd : (unidades.getD i defaultUnidad).id_docente = doc
      · rw [if_pos hd, if_pos (by rw [beq_iff_eq]; exact hd)]
        simp only [List.length_cons]
        omega
      · rw [if_neg hd, if_neg (by simp only [beq_iff_eq]; exact hd)]
        omega

theorem countOf_cursos_eq_obligaciones (unidades : List Unidad)
    (bloques : List (String × List Nat)) (doc : Nat) :
    countOf (cursosPorDocente unidades bloques) doc =
      (obligaciones unidades bloques doc).length := by
  unfold cursosPorDocente obligaciones
  rw [countOf_foldl_range, countOf_foldl_bloques, List.length_append]
  simp [countOf]

theorem fB_some_mem {unidades : List Unidad} {doc : Nat}
    {b : String × List Nat} {x : Nat}
    (h : (match b.2 with
          | [] => none
          | idx :: _ =>
            if (unidades.getD idx defaultUnidad).id_docente = doc then some idx
            else none) = some x) :
    x ∈ b.2 := by
  cases hb2 : b.2 with
  | nil => rw [hb2] at h; cases h
  | cons idx rest =>
    rw [hb2] at h
    dsimp only at h
    by_cases hd : (unidades.getD idx defaultUnidad).id_docente = doc
    · rw [if_pos hd] at h
      injection h with h'
      subst h'
      exact List.mem_cons_self _ _
    · rw [if_neg hd] at h
      cases h

theorem mem_obligaciones_cases {unidades : List Unidad}
    {bloques : List (String × List Nat)} {doc x : Nat}
    (hx : x ∈ obligaciones unidades bloques doc) :
    (∃ b ∈ bloques, (∃ rest, b.2 = x :: rest) ∧
      (unidades.getD x defaultUnidad).id_docente = doc) ∨
    (x < unidades.length ∧ contada bloques x = false ∧
      (unidades.getD x defaultUnidad).id_docente = doc) := by
  unfold obligaciones at hx
  rcases List.mem_append.mp hx with hm | hm
  · left
    obtain ⟨b, hb, hfb⟩ := List.mem_filterMap.mp hm
    refine ⟨b, hb, ?_⟩
    cases hb2 : b.2 with
    | nil => rw [hb2] at hfb; cases hfb
    | cons idx rest =>
      rw [hb2] at hfb
      dsimp only at hfb
      by_cases hd : (unidades.getD idx defaultUnidad).id_docente = doc
      · rw [if_pos hd] at hfb
        injection hfb with h'
        subst h'
        exact ⟨⟨rest, rfl⟩, hd⟩
      · rw [if_neg hd] at hfb
        cases hfb
  · right
    obtain ⟨hr, hp⟩ := List.mem_filter.mp hm
    rw [Bool.and_eq_true] at hp
    obtain ⟨h1, h2⟩ := hp
    refine ⟨List.mem_range.mp hr, ?_, ?_⟩
    · cases hc : contada bloques x with
      | false => rfl
      | true => rw [hc] at h1; cases h1
    · exact beq_iff_eq.mp h2

theorem mem_obligaciones_lt {unidades : List Unidad}
    {bloques : List (String × List Nat)} {doc : Nat}
    (hrange : ∀ b ∈ bloques, ∀ i ∈ b.2, i < unidades.length) {x : Nat}
    (hx : x ∈ obligaciones unidades bloques doc) : x < unidades.length := by
  rcases mem_obligaciones_cases hx with ⟨b, hb, ⟨rest, hb2⟩, _⟩ | ⟨hlt, _, _⟩
  · exact hrange b hb x (by rw [hb2]; exact List.mem_cons_self _ _)
  · exact hlt

theorem mem_obligaciones_doc {unidades : List Unidad}
    {bloques : List (String × List Nat)} {doc x : Nat}
    (hx : x ∈ obligaciones unidades bloques doc) :
    (unidades.getD x defaultUnidad).id_docente = doc := by
  rcases mem_obligaciones_cases hx with ⟨b, hb, _, hd⟩ | ⟨_, _, hd⟩ <;> exact hd

theorem contada_of_mem {bloques : List (String × List Nat)}
    {c : String × List Nat} (hc : c ∈ bloques) {y : Nat} (hy : y ∈ c.2) :
    contada bloques y = true :=
  List.any_eq_true.mpr ⟨c, hc, List.elem_eq_true_of_mem hy⟩

theorem nodup_filterMap_bloques (unidades : List Unidad) (doc : Nat) :
    ∀ (l : List (String × List Nat)),
      List.Pairwise (fun b1 b2 => ∀ x, x ∈ b1.2 → x ∉ b2.2) l →
      (l.filterMap (fun b =>
        match b.2 with
        | [] => none
        | idx :: _ =>
          if (unidades.getD idx defaultUnidad).id_docente = doc then some idx
          else none)).Nodup := by
  intro l
  induction l with
  | nil => intro _; simp
  | cons b t ih =>
    intro hp
    obtain ⟨hb, hpt⟩ := List.pairwise_cons.mp hp
    rw [List.filterMap_cons]
    cases hb2 : b.2 with
    | nil =>
      dsimp only
      exact ih hpt
    | cons idx rest =>
      dsimp only
      by_cases hd : (unidades.getD idx defaultUnidad).id_docente = doc
      · rw [if_pos hd]
        dsimp only
        rw [List.nodup_cons]
        refine ⟨?_, ih hpt⟩
        intro hmemIdx
        obtain ⟨b', hb't, hfb'⟩ := List.mem_filterMap.mp hmemIdx
        have hidx_b' : idx ∈ b'.2 := fB_some_mem hfb'
        have hidx_b : idx ∈ b.2 := by rw [hb2]; exact List.mem_cons_self _ _
        exact hb b' hb't idx hidx_b hidx_b'
      · rw [if_neg hd]
        dsimp only
        exact ih hpt

theorem obligaciones_nodup {unidades : List Unidad}
    {bloques : List (String × List Nat)} {doc : Nat}
    (hdisj : List.Pairwise (fun b1 b2 => ∀ x, x ∈ b1.2 → x ∉ b2.2) bloques) :
    (obligaciones unidades bloques doc).Nodup := by
  unfold obligaciones
  refine List.Nodup.append (nodup_filterMap_bloques unidades doc bloques hdisj)
    (List.Nodup.filter _ (List.nodup_range _)) ?_
  intro a ha hl
  obtain ⟨b, hb, hfb⟩ := List.mem_filterMap.mp ha
  have hab : a ∈ b.2 := fB_some_mem hfb
  have hct : contada bloques a = true := contada_of_mem hb hab
  have hp := (List.mem_filter.mp hl).2
  rw [Bool.and_eq_true] at hp
  obtain ⟨h1, _⟩ := hp
  rw [hct] at h1
  cases h1

theorem pairKey_eq_cases {a b c d : Nat} (h : pairKey a b = pairKey c d) :
    (a = c ∧ b = d) ∨ (a = d ∧ b = c) := by
  unfold pairKey at h
  rw [Prod.mk.injEq] at h
  obtain ⟨h1, h2⟩ := h
  omega

theorem mem_bloquePairs {x y : Nat} (hxy : x ≠ y) :
    ∀ {ind : List Nat}, pairKey x y ∈ bloquePairs ind → x ∈ ind ∧ y ∈ ind := by
  intro ind
  induction ind with
  | nil => intro h; cases h
  | cons z rest ih =>
    intro h
    simp only [bloquePairs] at h
    rcases List.mem_append.mp h with hm | hm
    · obtain ⟨w, hw, hpk⟩ := List.mem_map.mp hm
      rcases pairKey_eq_cases hpk with ⟨h1, h2⟩ | ⟨h1, h2⟩
      · exact ⟨h1 ▸ List.mem_cons_self _ _, h2 ▸ List.mem_cons_of_mem _ hw⟩
      · exact ⟨h2 ▸ List.mem_cons_of_mem _ hw, h1 ▸ List.mem_cons_self _ _⟩
    · obtain ⟨hx, hy⟩ := ih hm
      exact ⟨List.mem_cons_of_mem _ hx, List.mem_cons_of_mem _ hy⟩

theorem mem_mismoBloque {bloques : List (String × List Nat)} {x y : Nat}
    (hxy : x ≠ y) (h : pairKey x y ∈ mismoBloque bloques) :
    ∃ b ∈ bloques, x ∈ b.2 ∧ y ∈ b.2 := by
  unfold mismoBloque at h
  obtain ⟨l, hl, hpl⟩ := List.mem_flatten.mp h
  obtain ⟨b, hb, rfl⟩ := List.mem_map.mp hl
  obtain ⟨hx, hy⟩ := mem_bloquePairs hxy hpl
  exact ⟨b, hb, hx, hy⟩

theorem blocks_eq_of_shared {bloques : List (String × List Nat)}
    (hdisj : List.Pairwise (fun b1 b2 => ∀ x, x ∈ b1.2 → x ∉ b2.2) bloques)
    {A c : String × List Nat} (hA : A ∈ bloques) (hc : c ∈ bloques)
    {x : Nat} (hxA : x ∈ A.2) (hxc : x ∈ c.2) : A = c := by
  by_contra hne
  have hsymm : Symmetric (fun b1 b2 : String × List Nat => ∀ x, x ∈ b1.2 → x ∉ b2.2) := by
    intro b1 b2 h z hz2 hz1
    exact h z hz1 hz2
  exact List.Pairwise.forall hsymm hdisj hA hc hne x hxA hxc

theorem obligaciones_sep {datos : Datos} {α : Nat → Nat}
    (hsat : satisfiesSingle datos α)
    (hrange : ∀ b ∈ getBloques datos, ∀ i ∈ b.2, i < datos.unidades.length)
    (hdisj : List.Pairwise (fun b1 b2 => ∀ x, x ∈ b1.2 → x ∉ b2.2) (getBloques datos))
    (doc : Nat) {x y : Nat}
    (hx : x ∈ obligaciones datos.unidades (getBloques datos) doc)
    (hy : y ∈ obligaciones datos.unidades (getBloques datos) doc)
    (hxy : x ≠ y) : α x ≠ α y := by
  have hxlt : x < datos.unidades.length := mem_obligaciones_lt hrange hx
  have hylt : y < datos.unidades.length := mem_obligaciones_lt hrange hy
  have hdx : docenteAt datos x = doc := mem_obligaciones_doc hx
  have hdy : docenteAt datos y = doc := mem_obligaciones_doc hy
  have hpair : ((mismoBloque (getBloques datos)).contains (pairKey x y)) = false := by
    rw [Bool.eq_false_iff]
    intro hc
    obtain ⟨c, hcmem, hxc, hyc⟩ := mem_mismoBloque hxy (List.mem_of_elem_eq_true hc)
    rcases mem_obligaciones_cases hx with ⟨A, hA, ⟨restA, hA2⟩, _⟩ | ⟨_, hcontx, _⟩
    · rcases mem_obligaciones_cases hy with ⟨B, hB, ⟨restB, hB2⟩, _⟩ | ⟨_, hconty, _⟩
      · have hxA : x ∈ A.2 := by rw [hA2]; exact List.mem_cons_self _ _
        have hyB : y ∈ B.2 := by rw [hB2]; exact List.mem_cons_self _ _
        have hAc : A = c := blocks_eq_of_shared hdisj hA hcmem hxA hxc
        have hBc : B = c := blocks_eq_of_shared hdisj hB hcmem hyB hyc
        have hAB : A = B := hAc.trans hBc.symm
        rw [hAB, hB2] at hA2
        injection hA2 with h1 _
        exact hxy h1.symm
      · have hct : contada (getBloques datos) y = true := contada_of_mem hcmem hyc
        rw [hconty] at hct
        cases hct
    · have hct : contada (getBloques datos) x = true := contada_of_mem hcmem hxc
      rw [hcontx] at hct
      cases hct
  exact teacher_sep_single hsat hxlt hylt hxy hpair (hdx.trans hdy.symm)

theorem length_le_of_nodup_lt {l : List Nat} (hnd : l.Nodup) {np : Nat}
    (hlt : ∀ x ∈ l, x < np) : l.length ≤ np := by
  classical
  have hsub : l.toFinset ⊆ Finset.range np := by
    intro x hxm
    exact Finset.mem_range.mpr (hlt x (List.mem_toFinset.mp hxm))
  have hcard := Finset.card_le_card hsub
  rwa [List.toFinset_card_of_nodup hnd, Finset.card_range] at hcard

theorem no_sat_of_over_capacity (datos : Datos)
    (hrange : ∀ b ∈ getBloques datos, ∀ i ∈ b.2, i < datos.unidades.length)
    (hdisj : List.Pairwise (fun b1 b2 => ∀ x, x ∈ b1.2 → x ∉ b2.2) (getBloques datos))
    (doc : Nat)
    (hcount : datos.periodos_validos.length <
      countOf (cursosPorDocente datos.unidades (getBloques datos)) doc)
    (α : Nat → Nat) (hsat : satisfiesSingle datos α) : False := by
  have hlen : datos.periodos_validos.length <
      (obligaciones datos.unidades (getBloques datos) doc).length := by
    rw [← countOf_cursos_eq_obligaciones]
    exact hcount
  have hnd : (obligaciones datos.unidades (getBloques datos) doc).Nodup :=
    obligaciones_nodup hdisj
  have hmapnd : ((obligaciones datos.unidades (getBloques datos) doc).map α).Nodup := by
    refine List.Nodup.map_on ?_ hnd
    intro x hx y hy hfeq
    by_contra hne
    exact obligaciones_sep hsat hrange hdisj doc hx hy hne hfeq
  have hbound : ∀ v ∈ (obligaciones datos.unidades (getBloques datos) doc).map α,
      v < datos.periodos_validos.length := by
    intro v hv
    obtain ⟨x, hxm, rfl⟩ := List.mem_map.mp hv
    exact hsat.1 x (mem_obligaciones_lt hrange hxm)
  have hle := length_le_of_nodup_lt hmapnd hbound
  rw [List.length_map] at hle
  omega

theorem buildOk_of_range {bloques : List (String × List Nat)} {n : Nat}
    (h : ∀ b ∈ bloques, ∀ i ∈ b.2, i < n) : buildOk bloques n = true := by
  unfold buildOk
  rw [List.all_eq_true]
  intro b hb
  apply Bool.or_eq_true_iff.mpr
  right
  rw [List.all_eq_true]
  intro i hi
  exact decide_eq_true (h b hb i hi)

theorem analizarOk_of_range {bloques : List (String × List Nat)} {n : Nat}
    (h : ∀ b ∈ bloques, ∀ i ∈ b.2, i < n) : analizarOk bloques n = true := by
  unfold analizarOk
  rw [List.all_eq_true]
  intro b hb
  cases hb2 : b.2 with
  | nil => rfl
  | cons idx rest =>
    exact decide_eq_true (h b hb idx (by rw [hb2]; exact List.mem_cons_self _ _))

theorem infoOf_of_countOf_pos :
    ∀ (m : List (Nat × DocInfo)) (doc : Nat), 0 < countOf m doc →
      ∃ info, infoOf m doc = some info ∧ info.count = countOf m doc := by
  intro m
  induction m with
  | nil => intro doc h; simp [countOf] at h
  | cons p rest ih =>
    intro doc h
    obtain ⟨d, info⟩ := p
    by_cases hd : d = doc
    · exact ⟨info, by simp [infoOf, hd], by simp [countOf, hd]⟩
    · rw [countOf, if_neg hd] at h
      obtain ⟨info', h1, h2⟩ := ih doc h
      refine ⟨info', ?_, ?_⟩
      · rw [infoOf, if_neg hd]
        exact h1
      · rw [countOf, if_neg hd]
        exact h2

theorem infoOf_mem :
    ∀ {m : List (Nat × DocInfo)} {doc : Nat} {info : DocInfo},
      infoOf m doc = some info → (doc, info) ∈ m := by
  intro m
  induction m with
  | nil => intro doc info h; cases h
  | cons p rest ih =>
    intro doc info h
    obtain ⟨d, i⟩ := p
    by_cases hd : d = doc
    · subst hd
      rw [infoOf, if_pos rfl] at h
      injection h with h'
      subst h'
      exact List.mem_cons_self _ _
    · rw [infoOf, if_neg hd] at h
      exact List.mem_cons_of_mem _ (ih h)

theorem mem_joinSep (sep : String) {x : String} :
    ∀ {l : List String}, x ∈ l →
      ∃ pre post, joinSep sep l = pre ++ x ++ post := by
  intro l
  induction l with
  | nil => intro h; cases h
  | cons a t ih =>
    intro h
    rcases List.mem_cons.mp h with rfl | ht
    · cases t with
      | nil =>
        refine ⟨"", "", ?_⟩
        show joinSep sep [x] = "" ++ x ++ ""
        rw [joinSep]
        simp
      | cons b rest =>
        refine ⟨"", sep ++ joinSep sep (b :: rest), ?_⟩
        rw [joinSep]
        simp [String.append_assoc]
    · cases t with
      | nil => cases ht
      | cons b rest =>
        obtain ⟨pre, post, hj⟩ := ih ht
        refine ⟨a ++ sep ++ pre, post, ?_⟩
        rw [joinSep, hj]
        simp only [String.append_assoc]

theorem analizar_contains_line (unidades : List Unidad)
    (periodos_validos : List JVal) (grados : List Nat)
    (bloques_equiv : List (String × List Nat)) (mismo_bloque : List (Nat × Nat))
    (doc : Nat)
    (hcount : periodos_validos.length <
      countOf (cursosPorDocente unidades bloques_equiv) doc) :
    ∃ info, infoOf (cursosPorDocente unidades bloques_equiv) doc = some info ∧
      ∃ pre post,
        analizar_infactibilidad unidades periodos_validos grados bloques_equiv mismo_bloque =
          pre ++ lineaExceso info periodos_validos.length ++ post := by
  obtain ⟨info, hinfo, hcnt⟩ :=
    infoOf_of_countOf_pos (cursosPorDocente unidades bloques_equiv) doc (by omega)
  have hmem : (doc, info) ∈ cursosPorDocente unidades bloques_equiv := infoOf_mem hinfo
  have hcgt : periodos_validos.length < info.count := by
    rw [hcnt]
    exact hcount
  have hline : lineaExceso info periodos_validos.length ∈
      problemasSingle unidades bloques_equiv periodos_validos.length := by
    unfold problemasSingle
    exact List.mem_map.mpr
      ⟨(doc, info), List.mem_filter.mpr ⟨hmem, decide_eq_true hcgt⟩, rfl⟩
  have hne : (problemasSingle unidades bloques_equiv periodos_validos.length).isEmpty = false := by
    cases hl : problemasSingle unidades bloques_equiv periodos_validos.length with
    | nil => rw [hl] at hline; cases hline
    | cons c cs => simp [List.isEmpty]
  obtain ⟨pre, post, hj⟩ := mem_joinSep "\n" hline
  refine ⟨info, hinfo, "No hay solucion sin cruces. Docentes con exceso:\n" ++ pre, post, ?_⟩
  unfold analizar_infactibilidad
  rw [if_neg (by rw [hne]; exact Bool.false_ne_true), hj]
  rw [String.append_assoc, String.append_assoc, String.append_assoc]

/-- Claim C4: on a single-day input whose equivalence blocks are in-range
and pairwise disjoint (the spec's implicit partition precondition), if some
teacher's obligation count — one per non-empty block attributed via its
first member, one per blockless unit — exceeds the number of periods, then
the model is unsatisfiable, so any contract-respecting solve fails, and the
diagnostic message contains the analyzer's line naming that teacher with the
exact excess `count - len(periodos_validos)`. -/
theorem claim_C4_capacity_diagnosis (datos : Datos) (solver : CpResult)
    (hcon : SolverContract datos solver)
    (hmode : getModo datos = false)
    (hrange : ∀ b ∈ getBloques datos, ∀ i ∈ b.2, i < datos.unidades.length)
    (hdisj : List.Pairwise (fun b1 b2 => ∀ x, x ∈ b1.2 → x ∉ b2.2) (getBloques datos))
    (doc : Nat)
    (hcount : datos.periodos_validos.length <
      countOf (cursosPorDocente datos.unidades (getBloques datos)) doc) :
    (resolver_horario datos solver).exito = false ∧
    ∃ info, infoOf (cursosPorDocente datos.unidades (getBloques datos)) doc = some info ∧
      ∃ pre post, (resolver_horario datos solver).mensaje =
        pre ++ lineaExceso info datos.periodos_validos.length ++ post := by
  have hobs : 0 < (obligaciones datos.unidades (getBloques datos) doc).length := by
    rw [← countOf_cursos_eq_obligaciones]
    omega
  have hne : datos.unidades.length ≠ 0 := by
    obtain ⟨x, hx⟩ := List.exists_mem_of_length_pos hobs
    have := mem_obligaciones_lt hrange hx
    omega
  have hst : ¬(solver.status = CpStatus.OPTIMAL ∨ solver.status = CpStatus.FEASIBLE) := by
    intro hsucc
    exact no_sat_of_over_capacity datos hrange hdisj doc hcount solver.value
      ((hcon hsucc).2 hmode)
  have hbuild := buildOk_of_range hrange
  have hana := analizarOk_of_range hrange
  rw [resolver_fail_single datos solver hne hbuild hana hmode hst]
  exact ⟨rfl,
    analizar_contains_line datos.unidades datos.periodos_validos datos.grados
      (getBloques datos) (mismoBloque (getBloques datos)) doc hcount⟩

def datosC4 : Datos :=
  { unidades := [⟨7, [], none⟩, ⟨7, [], some "Ana"⟩],
    periodos_validos := [JVal.num 10],
    grados := [],
    bloques_equiv := some [],
    modo_multidia := some false,
    dias := none, periodos_por_dia := none }

def solverC4 : CpResult := { status := CpStatus.INFEASIBLE, value := fun _ => 0 }

theorem claim_C4_witness :
    (SolverContract datosC4 solverC4 ∧
     getModo datosC4 = false ∧
     datosC4.periodos_validos.length <
       countOf (cursosPorDocente datosC4.unidades (getBloques datosC4)) 7) ∧
    ((resolver_horario datosC4 solverC4).exito = false ∧
     ∃ info, infoOf (cursosPorDocente datosC4.unidades (getBloques datosC4)) 7 = some info ∧
       ∃ pre post, (resolver_horario datosC4 solverC4).mensaje =
         pre ++ lineaExceso info datosC4.periodos_validos.length ++ post) :=
  ⟨⟨by decide, by decide, by decide⟩,
   claim_C4_capacity_diagnosis datosC4 solverC4 (by decide) (by decide)
     (by decide) (by decide) 7 (by decide)⟩
